import Mathlib

/-!
A Lean model of the `scale_serp` client library (src/heritage.rs and
src/locations.rs): the request configurations (`Params`, `LocReqConfig`),
their URL builders, and the serde-derived JSON decoders for the search
and locations response schemas.

JSON values are modelled by the inductive `Json`; JSON numbers are
rationals (integer-typed Rust fields additionally require an in-range
integer value, matching serde_json's visitors).  JSON objects are
modelled as key/value lists with first-binding-wins lookup; bodies with
duplicate object keys (which serde's derived decoders reject) are
outside the model.  Rust `Option<T>` struct fields follow serde's
convention: a missing key or an explicit `null` decodes to `none`.
Decoder failure (serde's error) is modelled by `Option.none`; a Rust
panic (`unwrap`) is likewise modelled as `none`.  The process
environment is modelled as a function `String → Option String`.
-/

/-- A JSON value. -/
inductive Json where
  | null : Json
  | bool : Bool → Json
  | num : Rat → Json
  | str : String → Json
  | arr : List Json → Json
  | obj : List (String × Json) → Json

/-- Look a key up in a JSON object; `none` for a missing key or a non-object. -/
def Json.getField : Json → String → Option Json
  | .obj kvs, k => kvs.lookup k
  | _, _ => none

/-- serde: a Rust `bool` decodes from a JSON boolean only. -/
def decodeBool : Json → Option Bool
  | .bool b => some b
  | _ => none

/-- serde: a Rust `String` decodes from a JSON string only. -/
def decodeString : Json → Option String
  | .str s => some s
  | _ => none

/-- serde: a Rust `f64` decodes from any JSON number (modelled as a rational). -/
def decodeF64 : Json → Option Rat
  | .num q => some q
  | _ => none

/-- serde: a Rust `usize` (64-bit) decodes from an integral JSON number in `[0, 2^64)`. -/
def decodeUSize : Json → Option Nat
  | .num q => if q.den = 1 ∧ 0 ≤ q.num ∧ q.num < 2 ^ 64 then some q.num.toNat else none
  | _ => none

/-- serde: a Rust `i32` decodes from an integral JSON number in `[-2^31, 2^31)`. -/
def decodeI32 : Json → Option Int
  | .num q => if q.den = 1 ∧ -(2 ^ 31) ≤ q.num ∧ q.num < 2 ^ 31 then some q.num else none
  | _ => none

/-- serde: a Rust `u32` decodes from an integral JSON number in `[0, 2^32)`. -/
def decodeU32 : Json → Option Nat
  | .num q => if q.den = 1 ∧ 0 ≤ q.num ∧ q.num < 2 ^ 32 then some q.num.toNat else none
  | _ => none

/-- serde: `Option<T>` decodes `null` to `None` and any other value through `T`. -/
def decodeNullable (dec : Json → Option α) : Json → Option (Option α)
  | .null => some none
  | j => (dec j).map some

/-- serde: a required struct field — the key must be present and its value decode. -/
def decodeReqField (dec : Json → Option α) (j : Json) (k : String) : Option α :=
  (j.getField k).bind dec

/-- serde: an `Option<T>` struct field — a missing key decodes to `None`,
a present key goes through `Option<T>`'s deserializer. -/
def decodeOptField (dec : Json → Option α) (j : Json) (k : String) : Option (Option α) :=
  match j.getField k with
  | none => some none
  | some v => decodeNullable dec v

/-- Decode every element of a list, failing if any element fails. -/
def decodeElems (dec : Json → Option α) : List Json → Option (List α)
  | [] => some []
  | x :: xs => do
    let a ← dec x
    let as ← decodeElems dec xs
    pure (a :: as)

/-- serde: a Rust `Vec<T>` decodes from a JSON array whose elements all decode. -/
def decodeList (dec : Json → Option α) : Json → Option (List α)
  | .arr xs => decodeElems dec xs
  | _ => none

/-! ## URL observation helpers

`Params::to_url` and `LocReqConfig::to_url` return strings; to state
round-trip properties we parse a produced URL the way a URL consumer
would: take the part after the first `?`, split it on `&`, and split
each piece at its first `=`; percent-escapes decode via `percentDecode`. -/

/-- The characters after the first occurrence of `c`, if any. -/
def afterChar (c : Char) : List Char → Option (List Char)
  | [] => none
  | x :: xs => if x = c then some xs else afterChar c xs

/-- Split a character list on every occurrence of `c` (the separators are dropped). -/
def splitOnChar (c : Char) : List Char → List (List Char)
  | [] => [[]]
  | x :: xs =>
    if x = c then [] :: splitOnChar c xs
    else
      match splitOnChar c xs with
      | [] => [[x]]
      | y :: ys => (x :: y) :: ys

/-- Split a character list at the first occurrence of `c` (dropping it);
if `c` does not occur the whole input is the first component. -/
def splitAtChar (c : Char) : List Char → List Char × List Char
  | [] => ([], [])
  | x :: xs =>
    if x = c then ([], xs)
    else
      match splitAtChar c xs with
      | (a, b) => (x :: a, b)

/-- The query part of a URL: the characters after the first `?` (empty if none). -/
def queryPart (s : String) : List Char :=
  (afterChar '?' s.data).getD []

/-- Parse a query string into its `name=value` pairs. -/
def parseQuery (l : List Char) : List (String × String) :=
  (splitOnChar '&' l).map fun seg =>
    match splitAtChar '=' seg with
    | (n, v) => (String.mk n, String.mk v)

/-- The numeric value of a hexadecimal digit. -/
def hexDigit (c : Char) : Option Nat :=
  if '0' ≤ c ∧ c ≤ '9' then some (c.toNat - '0'.toNat)
  else if 'a' ≤ c ∧ c ≤ 'f' then some (c.toNat - 'a'.toNat + 10)
  else if 'A' ≤ c ∧ c ≤ 'F' then some (c.toNat - 'A'.toNat + 10)
  else none

/-- Decode `%XX` percent-escapes; malformed escapes pass through verbatim. -/
def percentDecode : List Char → List Char
  | [] => []
  | '%' :: a :: b :: rest =>
    match hexDigit a, hexDigit b with
    | some x, some y => Char.ofNat (16 * x + y) :: percentDecode rest
    | _, _ => '%' :: percentDecode (a :: b :: rest)
  | c :: rest => c :: percentDecode rest

/-- `percentDecode` lifted to strings. -/
def percentDecodeStr (s : String) : String :=
  String.mk (percentDecode s.data)

/-- The process environment, as seen through `std::env::var`. -/
def Env : Type := String → Option String

namespace Heritage

/-- src/heritage.rs `Params`: the parameters for making a call to ScaleSERP. -/
structure Params where
  api_key : String
  location : String
  q : String
deriving DecidableEq

/-- src/heritage.rs `Params::new_env`: build a `Params` using the api key from
the `SCALE_SERP_KEY` environment variable, defaulting to `""` when unset. -/
def Params.new_env (env : Env) (q : String) (location : String) : Params :=
  { api_key := (env "SCALE_SERP_KEY").getD ""
    location := location
    q := q }

/-- src/heritage.rs `Params::new_env_nyc`: a search from New York City. -/
def Params.new_env_nyc (env : Env) (q : String) : Params :=
  Params.new_env env q "New York,New York,United States"

/-- src/heritage.rs `Params::new_env_usa`: a search within the United States. -/
def Params.new_env_usa (env : Env) (q : String) : Params :=
  Params.new_env env q "United+States"

/-- src/heritage.rs `Params::to_url`: the URL associated with these parameters. -/
def Params.to_url (p : Params) : String :=
  "https://api.scaleserp.com/search?api_key=" ++ p.api_key ++
    "&location=" ++ p.location ++ "&q=" ++ p.q

/-- src/heritage.rs `RequestInfo`. -/
structure RequestInfo where
  success : Bool
  credits_used : Nat
  credits_used_this_request : Nat
  credits_remaining : Nat
  credits_reset_at : String
deriving DecidableEq

/-- src/heritage.rs `SearchParameters`: the query parameters echoed in the response. -/
structure SearchParameters where
  location : String
  q : String
deriving DecidableEq

/-- src/heritage.rs `SearchMetadata`. -/
structure SearchMetadata where
  created_at : String
  processed_at : String
  total_time_taken : Rat
  engine_url : String
  html_url : String
  json_url : String
  location_auto_message : Option String
deriving DecidableEq

/-- src/heritage.rs `SearchInformation`. -/
structure SearchInformation where
  original_query_yields_zero_results : Bool
  total_results : Nat
  time_taken_displayed : Rat
  query_displayed : String
  detected_location : Option String
deriving DecidableEq

/-- src/heritage.rs `AdSitelink`. -/
structure AdSitelink where
  title : String
  link : String
deriving DecidableEq

/-- src/heritage.rs `Ad`. -/
structure Ad where
  position : Nat
  block_position : String
  title : String
  link : String
  domain : String
  displayed_link : String
  description : String
  sitelinks : Option (List AdSitelink)
deriving DecidableEq

/-- src/heritage.rs `OrganicResult`. -/
structure OrganicResult where
  position : Nat
  title : String
  link : String
  domain : String
  displayed_link : String
  snippet : String
  prerender : Bool
  snippet_matched : Option (List String)
  block_position : Nat
deriving DecidableEq

/-- src/heritage.rs `TopStory`. -/
structure TopStory where
  link : String
  title : String
  visible_initially : Bool
  source : String
  date : String
  date_utc : String
  block_position : Nat
deriving DecidableEq

/-- src/heritage.rs `TopProductSource`. -/
structure TopProductSource where
  name : String
  link : String
  title : String
deriving DecidableEq

/-- src/heritage.rs `TopProductSpecification`. -/
structure TopProductSpecification where
  name : String
  value : String
deriving DecidableEq

/-- src/heritage.rs `TopProduct`. -/
structure TopProduct where
  title : String
  price : String
  rating : Rat
  sources : List TopProductSource
  specifications : List TopProductSpecification
  block_position : Nat
deriving DecidableEq

/-- src/heritage.rs `RelatedQuestionSource`. -/
structure RelatedQuestionSource where
  link : String
  displayed_link : String
  title : String
deriving DecidableEq

/-- src/heritage.rs `RelatedQuestion`. -/
structure RelatedQuestion where
  question : String
  answer : String
  source : RelatedQuestionSource
  block_position : Nat
deriving DecidableEq

/-- src/heritage.rs `RelatedSearch`. -/
structure RelatedSearch where
  query : String
  link : String
deriving DecidableEq

/-- src/heritage.rs `Resp`: the top-level object representing a response from
ScaleSERP.  `ads`, `top_stories`, `top_products` and `related_questions` are
`Option<Vec<...>>`; `related_searches` and `organic_results` are plain `Vec<...>`. -/
structure Resp where
  request_info : RequestInfo
  search_metadata : SearchMetadata
  search_parameters : SearchParameters
  search_information : SearchInformation
  ads : Option (List Ad)
  top_stories : Option (List TopStory)
  top_products : Option (List TopProduct)
  related_searches : List RelatedSearch
  related_questions : Option (List RelatedQuestion)
  organic_results : List OrganicResult
deriving DecidableEq

/-- The serde-derived decoder of `RequestInfo`. -/
def decodeRequestInfo (j : Json) : Option RequestInfo := do
  let success ← decodeReqField decodeBool j "success"
  let credits_used ← decodeReqField decodeUSize j "credits_used"
  let credits_used_this_request ← decodeReqField decodeUSize j "credits_used_this_request"
  let credits_remaining ← decodeReqField decodeUSize j "credits_remaining"
  let credits_reset_at ← decodeReqField decodeString j "credits_reset_at"
  pure ⟨success, credits_used, credits_used_this_request, credits_remaining, credits_reset_at⟩

/-- The serde-derived decoder of `SearchParameters`. -/
def decodeSearchParameters (j : Json) : Option SearchParameters := do
  let location ← decodeReqField decodeString j "location"
  let q ← decodeReqField decodeString j "q"
  pure ⟨location, q⟩

/-- The serde-derived decoder of `SearchMetadata`. -/
def decodeSearchMetadata (j : Json) : Option SearchMetadata := do
  let created_at ← decodeReqField decodeString j "created_at"
  let processed_at ← decodeReqField decodeString j "processed_at"
  let total_time_taken ← decodeReqField decodeF64 j "total_time_taken"
  let engine_url ← decodeReqField decodeString j "engine_url"
  let html_url ← decodeReqField decodeString j "html_url"
  let json_url ← decodeReqField decodeString j "json_url"
  let location_auto_message ← decodeOptField decodeString j "location_auto_message"
  pure ⟨created_at, processed_at, total_time_taken, engine_url, html_url, json_url,
    location_auto_message⟩

/-- The serde-derived decoder of `SearchInformation`. -/
def decodeSearchInformation (j : Json) : Option SearchInformation := do
  let zero ← decodeReqField decodeBool j "original_query_yields_zero_results"
  let total_results ← decodeReqField decodeUSize j "total_results"
  let time_taken_displayed ← decodeReqField decodeF64 j "time_taken_displayed"
  let query_displayed ← decodeReqField decodeString j "query_displayed"
  let detected_location ← decodeOptField decodeString j "detected_location"
  pure ⟨zero, total_results, time_taken_displayed, query_displayed, detected_location⟩

/-- The serde-derived decoder of `AdSitelink`. -/
def decodeAdSitelink (j : Json) : Option AdSitelink := do
  let title ← decodeReqField decodeString j "title"
  let link ← decodeReqField decodeString j "link"
  pure ⟨title, link⟩

/-- The serde-derived decoder of `Ad`. -/
def decodeAd (j : Json) : Option Ad := do
  let position ← decodeReqField decodeUSize j "position"
  let block_position ← decodeReqField decodeString j "block_position"
  let title ← decodeReqField decodeString j "title"
  let link ← decodeReqField decodeString j "link"
  let domain ← decodeReqField decodeString j "domain"
  let displayed_link ← decodeReqField decodeString j "displayed_link"
  let description ← decodeReqField decodeString j "description"
  let sitelinks ← decodeOptField (decodeList decodeAdSitelink) j "sitelinks"
  pure ⟨position, block_position, title, link, domain, displayed_link, description, sitelinks⟩

/-- The serde-derived decoder of `OrganicResult`. -/
def decodeOrganicResult (j : Json) : Option OrganicResult := do
  let position ← decodeReqField decodeUSize j "position"
  let title ← decodeReqField decodeString j "title"
  let link ← decodeReqField decodeString j "link"
  let domain ← decodeReqField decodeString j "domain"
  let displayed_link ← decodeReqField decodeString j "displayed_link"
  let snippet ← decodeReqField decodeString j "snippet"
  let prerender ← decodeReqField decodeBool j "prerender"
  let snippet_matched ← decodeOptField (decodeList decodeString) j "snippet_matched"
  let block_position ← decodeReqField decodeUSize j "block_position"
  pure ⟨position, title, link, domain, displayed_link, snippet, prerender, snippet_matched,
    block_position⟩

/-- The serde-derived decoder of `TopStory`. -/
def decodeTopStory (j : Json) : Option TopStory := do
  let link ← decodeReqField decodeString j "link"
  let title ← decodeReqField decodeString j "title"
  let visible_initially ← decodeReqField decodeBool j "visible_initially"
  let source ← decodeReqField decodeString j "source"
  let date ← decodeReqField decodeString j "date"
  let date_utc ← decodeReqField decodeString j "date_utc"
  let block_position ← decodeReqField decodeUSize j "block_position"
  pure ⟨link, title, visible_initially, source, date, date_utc, block_position⟩

/-- The serde-derived decoder of `TopProductSource`. -/
def decodeTopProductSource (j : Json) : Option TopProductSource := do
  let name ← decodeReqField decodeString j "name"
  let link ← decodeReqField decodeString j "link"
  let title ← decodeReqField decodeString j "title"
  pure ⟨name, link, title⟩

/-- The serde-derived decoder of `TopProductSpecification`. -/
def decodeTopProductSpecification (j : Json) : Option TopProductSpecification := do
  let name ← decodeReqField decodeString j "name"
  let value ← decodeReqField decodeString j "value"
  pure ⟨name, value⟩

/-- The serde-derived decoder of `TopProduct`. -/
def decodeTopProduct (j : Json) : Option TopProduct := do
  let title ← decodeReqField decodeString j "title"
  let price ← decodeReqField decodeString j "price"
  let rating ← decodeReqField decodeF64 j "rating"
  let sources ← decodeReqField (decodeList decodeTopProductSource) j "sources"
  let specifications ← decodeReqField (decodeList decodeTopProductSpecification) j "specifications"
  let block_position ← decodeReqField decodeUSize j "block_position"
  pure ⟨title, price, rating, sources, specifications, block_position⟩

/-- The serde-derived decoder of `RelatedQuestionSource`. -/
def decodeRelatedQuestionSource (j : Json) : Option RelatedQuestionSource := do
  let link ← decodeReqField decodeString j "link"
  let displayed_link ← decodeReqField decodeString j "displayed_link"
  let title ← decodeReqField decodeString j "title"
  pure ⟨link, displayed_link, title⟩

/-- The serde-derived decoder of `RelatedQuestion`. -/
def decodeRelatedQuestion (j : Json) : Option RelatedQuestion := do
  let question ← decodeReqField decodeString j "question"
  let answer ← decodeReqField decodeString j "answer"
  let source ← decodeReqField decodeRelatedQuestionSource j "source"
  let block_position ← decodeReqField decodeUSize j "block_position"
  pure ⟨question, answer, source, block_position⟩

/-- The serde-derived decoder of `RelatedSearch`. -/
def decodeRelatedSearch (j : Json) : Option RelatedSearch := do
  let query ← decodeReqField decodeString j "query"
  let link ← decodeReqField decodeString j "link"
  pure ⟨query, link⟩

/-- The serde-derived decoder of `Resp`. -/
def decodeResp (j : Json) : Option Resp := do
  let request_info ← decodeReqField decodeRequestInfo j "request_info"
  let search_metadata ← decodeReqField decodeSearchMetadata j "search_metadata"
  let search_parameters ← decodeReqField decodeSearchParameters j "search_parameters"
  let search_information ← decodeReqField decodeSearchInformation j "search_information"
  let ads ← decodeOptField (decodeList decodeAd) j "ads"
  let top_stories ← decodeOptField (decodeList decodeTopStory) j "top_stories"
  let top_products ← decodeOptField (decodeList decodeTopProduct) j "top_products"
  let related_searches ← decodeReqField (decodeList decodeRelatedSearch) j "related_searches"
  let related_questions ← decodeOptField (decodeList decodeRelatedQuestion) j "related_questions"
  let organic_results ← decodeReqField (decodeList decodeOrganicResult) j "organic_results"
  pure ⟨request_info, search_metadata, search_parameters, search_information, ads, top_stories,
    top_products, related_searches, related_questions, organic_results⟩

end Heritage

namespace Locations

/-- src/locations.rs `LocReqConfig`: configuration for a request to the location API. -/
structure LocReqConfig where
  api_key : String
  q : String
  type : Option String
  country_code : Option String
deriving DecidableEq

/-- src/locations.rs `LocReqConfig::new`: a new config, with no type or
country-code filter. -/
def LocReqConfig.new (api_key : String) (q : String) : LocReqConfig :=
  { api_key := api_key, q := q, type := none, country_code := none }

/-- src/locations.rs `LocReqConfig::new_from_env`: a new config whose api key is
`SCALE_SERP_KEY` from the environment; `unwrap` panics (modelled `none`) when unset. -/
def LocReqConfig.new_from_env (env : Env) (q : String) : Option LocReqConfig :=
  (env "SCALE_SERP_KEY").map fun api_key => LocReqConfig.new api_key q

/-- src/locations.rs `LocReqConfig::to_url`: generate the url to call.  Each set
optional filter appends `'&'` followed by the bare value (no parameter name). -/
def LocReqConfig.to_url (c : LocReqConfig) : String :=
  let url := "https://api.scaleserp.com/locations?api_key=" ++ c.api_key ++ "&q=" ++ c.q
  let url :=
    match c.type with
    | none => url
    | some tpe => url ++ "&" ++ tpe
  match c.country_code with
  | none => url
  | some cc => url ++ "&" ++ cc

/-- src/locations.rs `RequestInfo` (only `success`). -/
structure RequestInfo where
  success : Bool
deriving DecidableEq

/-- src/locations.rs `GpsCoordinates`. -/
structure GpsCoordinates where
  latitude : Rat
  longitude : Rat
deriving DecidableEq

/-- src/locations.rs `Location`.  Every field is required. -/
structure Location where
  id : Int
  name : String
  type : String
  full_name : String
  parent_id : Int
  country_code : String
  reach : Nat
  gps_coordinates : GpsCoordinates
deriving DecidableEq

/-- src/locations.rs `LocationResp`: the response sent back by the location API. -/
structure LocationResp where
  request_info : RequestInfo
  locations_total : Int
  locations_total_current_page : Int
  page : Int
  limit : Int
  locations : List Location
deriving DecidableEq

/-- The serde-derived decoder of the locations `RequestInfo`. -/
def decodeRequestInfo (j : Json) : Option RequestInfo := do
  let success ← decodeReqField decodeBool j "success"
  pure ⟨success⟩

/-- The serde-derived decoder of `GpsCoordinates`. -/
def decodeGpsCoordinates (j : Json) : Option GpsCoordinates := do
  let latitude ← decodeReqField decodeF64 j "latitude"
  let longitude ← decodeReqField decodeF64 j "longitude"
  pure ⟨latitude, longitude⟩

/-- The serde-derived decoder of `Location`. -/
def decodeLocation (j : Json) : Option Location := do
  let id ← decodeReqField decodeI32 j "id"
  let name ← decodeReqField decodeString j "name"
  let tpe ← decodeReqField decodeString j "type"
  let full_name ← decodeReqField decodeString j "full_name"
  let parent_id ← decodeReqField decodeI32 j "parent_id"
  let country_code ← decodeReqField decodeString j "country_code"
  let reach ← decodeReqField decodeU32 j "reach"
  let gps_coordinates ← decodeReqField decodeGpsCoordinates j "gps_coordinates"
  pure ⟨id, name, tpe, full_name, parent_id, country_code, reach, gps_coordinates⟩

/-- The serde-derived decoder of `LocationResp`. -/
def decodeLocationResp (j : Json) : Option LocationResp := do
  let request_info ← decodeReqField decodeRequestInfo j "request_info"
  let locations_total ← decodeReqField decodeI32 j "locations_total"
  let locations_total_current_page ← decodeReqField decodeI32 j "locations_total_current_page"
  let page ← decodeReqField decodeI32 j "page"
  let limit ← decodeReqField decodeI32 j "limit"
  let locations ← decodeReqField (decodeList decodeLocation) j "locations"
  pure ⟨request_info, locations_total, locations_total_current_page, page, limit, locations⟩

end Locations

/-! ## Derived predicates and concrete inputs used by the statements below -/

/-- The JSON key `k` is missing from `j`, or bound to an explicit `null`. -/
def absentOrNull (j : Json) (k : String) : Prop :=
  j.getField k = none ∨ j.getField k = some Json.null

/-- The required field `k` of `j` is present and its value has the JSON type
that the primitive decoder `dec` accepts. -/
def fieldOk {α : Type} (dec : Json → Option α) (j : Json) (k : String) : Prop :=
  ∃ w, j.getField k = some w ∧ (dec w).isSome

namespace Locations

/-- Every field of the `Location` schema is present in the JSON element `x`,
including both coordinates inside its `gps_coordinates` object. -/
def LocationKeysPresent (x : Json) : Prop :=
  (x.getField "id").isSome ∧ (x.getField "name").isSome ∧ (x.getField "type").isSome ∧
  (x.getField "full_name").isSome ∧ (x.getField "parent_id").isSome ∧
  (x.getField "country_code").isSome ∧ (x.getField "reach").isSome ∧
  ∃ g, x.getField "gps_coordinates" = some g ∧
    (g.getField "latitude").isSome ∧ (g.getField "longitude").isSome

/-- Every field of the `LocationResp` schema is present in the JSON body `j`:
`request_info` (with `success`), the four counters, and `locations` as an array
each of whose elements has every `Location` field. -/
def LocationRespKeysPresent (j : Json) : Prop :=
  (∃ ri, j.getField "request_info" = some ri ∧ (ri.getField "success").isSome) ∧
  (j.getField "locations_total").isSome ∧ (j.getField "locations_total_current_page").isSome ∧
  (j.getField "page").isSome ∧ (j.getField "limit").isSome ∧
  ∃ items, j.getField "locations" = some (Json.arr items) ∧ ∀ x ∈ items, LocationKeysPresent x

/-- A complete locations-response body with one location. -/
def fullLocBody : Json := Json.obj [
  ("request_info", Json.obj [("success", Json.bool true)]),
  ("locations_total", Json.num 1),
  ("locations_total_current_page", Json.num 1),
  ("page", Json.num 1),
  ("limit", Json.num 10),
  ("locations", Json.arr [Json.obj [
    ("id", Json.num 12), ("name", Json.str "Chicago"), ("type", Json.str "City"),
    ("full_name", Json.str "Chicago,Illinois,United States"), ("parent_id", Json.num 5),
    ("country_code", Json.str "US"), ("reach", Json.num 6000000),
    ("gps_coordinates", Json.obj [("latitude", Json.num 41), ("longitude", Json.num (-87))])]])]

/-- The decoded value of `fullLocBody`. -/
def fullLocResp : LocationResp :=
  ⟨⟨true⟩, 1, 1, 1, 10, [⟨12, "Chicago", "City", "Chicago,Illinois,United States", 5, "US",
    6000000, ⟨41, -87⟩⟩]⟩

end Locations

namespace Heritage

/-- A minimal valid search-response body: every required section present, the
four optional sections entirely absent, both required arrays empty. -/
def minimalBody : Json := Json.obj [
  ("request_info", Json.obj [("success", Json.bool true), ("credits_used", Json.num 5),
    ("credits_used_this_request", Json.num 1), ("credits_remaining", Json.num 95),
    ("credits_reset_at", Json.str "2021-07-31T01:00:37.000Z")]),
  ("search_metadata", Json.obj [("created_at", Json.str "c"), ("processed_at", Json.str "p"),
    ("total_time_taken", Json.num 1), ("engine_url", Json.str "e"), ("html_url", Json.str "h"),
    ("json_url", Json.str "j")]),
  ("search_parameters", Json.obj [("location", Json.str "New York,New York,United States"),
    ("q", Json.str "anionic surfactants")]),
  ("search_information", Json.obj [("original_query_yields_zero_results", Json.bool false),
    ("total_results", Json.num 10), ("time_taken_displayed", Json.num 1),
    ("query_displayed", Json.str "anionic surfactants")]),
  ("related_searches", Json.arr []),
  ("organic_results", Json.arr [])]

/-- The decoded value of `minimalBody`. -/
def minimalResp : Resp :=
  ⟨⟨true, 5, 1, 95, "2021-07-31T01:00:37.000Z"⟩,
   ⟨"c", "p", 1, "e", "h", "j", none⟩,
   ⟨"New York,New York,United States", "anionic surfactants"⟩,
   ⟨false, 10, 1, "anionic surfactants", none⟩,
   none, none, none, [], none, []⟩

/-- Every required field of the `RequestInfo` schema is present in `v` with the
right JSON type. -/
def RequestInfoRequiredOk (v : Json) : Prop :=
  fieldOk decodeBool v "success" ∧ fieldOk decodeUSize v "credits_used" ∧
  fieldOk decodeUSize v "credits_used_this_request" ∧
  fieldOk decodeUSize v "credits_remaining" ∧ fieldOk decodeString v "credits_reset_at"

/-- Every required field of the `SearchMetadata` schema is present in `v` with
the right JSON type (`location_auto_message` is optional and exempt). -/
def SearchMetadataRequiredOk (v : Json) : Prop :=
  fieldOk decodeString v "created_at" ∧ fieldOk decodeString v "processed_at" ∧
  fieldOk decodeF64 v "total_time_taken" ∧ fieldOk decodeString v "engine_url" ∧
  fieldOk decodeString v "html_url" ∧ fieldOk decodeString v "json_url"

/-- Both required fields of the `SearchParameters` schema are present in `v`
with the right JSON type. -/
def SearchParametersRequiredOk (v : Json) : Prop :=
  fieldOk decodeString v "location" ∧ fieldOk decodeString v "q"

/-- Every required field of the `SearchInformation` schema is present in `v`
with the right JSON type (`detected_location` is optional and exempt). -/
def SearchInformationRequiredOk (v : Json) : Prop :=
  fieldOk decodeBool v "original_query_yields_zero_results" ∧
  fieldOk decodeUSize v "total_results" ∧ fieldOk decodeF64 v "time_taken_displayed" ∧
  fieldOk decodeString v "query_displayed"

/-- Both required fields of a `RelatedSearch` element are present with the
right JSON type. -/
def RelatedSearchRequiredOk (x : Json) : Prop :=
  fieldOk decodeString x "query" ∧ fieldOk decodeString x "link"

/-- Every required field of an `OrganicResult` element is present with the
right JSON type (`snippet_matched` is optional and exempt). -/
def OrganicResultRequiredOk (x : Json) : Prop :=
  fieldOk decodeUSize x "position" ∧ fieldOk decodeString x "title" ∧
  fieldOk decodeString x "link" ∧ fieldOk decodeString x "domain" ∧
  fieldOk decodeString x "displayed_link" ∧ fieldOk decodeString x "snippet" ∧
  fieldOk decodeBool x "prerender" ∧ fieldOk decodeUSize x "block_position"

/-- The whole required part of the `Resp` schema is present in the body `j`
and well-typed: the four required sections with each of their required
sub-fields, and `related_searches` / `organic_results` as JSON arrays all of
whose elements carry their required fields. -/
def RespRequiredOk (j : Json) : Prop :=
  (∃ v, j.getField "request_info" = some v ∧ RequestInfoRequiredOk v) ∧
  (∃ v, j.getField "search_metadata" = some v ∧ SearchMetadataRequiredOk v) ∧
  (∃ v, j.getField "search_parameters" = some v ∧ SearchParametersRequiredOk v) ∧
  (∃ v, j.getField "search_information" = some v ∧ SearchInformationRequiredOk v) ∧
  (∃ items, j.getField "related_searches" = some (Json.arr items) ∧
    ∀ x ∈ items, RelatedSearchRequiredOk x) ∧
  (∃ items, j.getField "organic_results" = some (Json.arr items) ∧
    ∀ x ∈ items, OrganicResultRequiredOk x)

/-- A valid search-response body with one related search and one organic
result (optional sections absent). -/
def fullSearchBody : Json := Json.obj [
  ("request_info", Json.obj [("success", Json.bool true), ("credits_used", Json.num 5),
    ("credits_used_this_request", Json.num 1), ("credits_remaining", Json.num 95),
    ("credits_reset_at", Json.str "2021-07-31T01:00:37.000Z")]),
  ("search_metadata", Json.obj [("created_at", Json.str "c"), ("processed_at", Json.str "p"),
    ("total_time_taken", Json.num 1), ("engine_url", Json.str "e"), ("html_url", Json.str "h"),
    ("json_url", Json.str "j")]),
  ("search_parameters", Json.obj [("location", Json.str "New York,New York,United States"),
    ("q", Json.str "anionic surfactants")]),
  ("search_information", Json.obj [("original_query_yields_zero_results", Json.bool false),
    ("total_results", Json.num 10), ("time_taken_displayed", Json.num 1),
    ("query_displayed", Json.str "anionic surfactants")]),
  ("related_searches", Json.arr [Json.obj [
    ("query", Json.str "anionic surfactants uses"),
    ("link", Json.str "https://www.google.com/search?q=anionic+surfactants+uses")]]),
  ("organic_results", Json.arr [Json.obj [
    ("position", Json.num 1), ("title", Json.str "Anionic surfactant"),
    ("link", Json.str "https://en.wikipedia.org/wiki/Surfactant"),
    ("domain", Json.str "en.wikipedia.org"),
    ("displayed_link", Json.str "https://en.wikipedia.org/wiki"),
    ("snippet", Json.str "Anionic surfactants contain anionic functional groups."),
    ("prerender", Json.bool false), ("block_position", Json.num 1)]])]

/-- The decoded value of `fullSearchBody`. -/
def fullSearchResp : Resp :=
  ⟨⟨true, 5, 1, 95, "2021-07-31T01:00:37.000Z"⟩,
   ⟨"c", "p", 1, "e", "h", "j", none⟩,
   ⟨"New York,New York,United States", "anionic surfactants"⟩,
   ⟨false, 10, 1, "anionic surfactants", none⟩,
   none, none, none,
   [⟨"anionic surfactants uses", "https://www.google.com/search?q=anionic+surfactants+uses"⟩],
   none,
   [⟨1, "Anionic surfactant", "https://en.wikipedia.org/wiki/Surfactant", "en.wikipedia.org",
     "https://en.wikipedia.org/wiki", "Anionic surfactants contain anionic functional groups.",
     false, none, 1⟩]⟩

/-- A `search_metadata` object with every required field and no
`location_auto_message`. -/
def metaNoAuto : Json := Json.obj [("created_at", Json.str "c"), ("processed_at", Json.str "p"),
  ("total_time_taken", Json.num 1), ("engine_url", Json.str "e"), ("html_url", Json.str "h"),
  ("json_url", Json.str "j")]

/-- A `search_metadata` object carrying a `location_auto_message` string. -/
def metaWithAuto : Json := Json.obj [("created_at", Json.str "c"), ("processed_at", Json.str "p"),
  ("total_time_taken", Json.num 1), ("engine_url", Json.str "e"), ("html_url", Json.str "h"),
  ("json_url", Json.str "j"), ("location_auto_message", Json.str "Results for New York")]

/-- A `search_information` object whose `detected_location` is an explicit `null`. -/
def infoNullDetected : Json := Json.obj [
  ("original_query_yields_zero_results", Json.bool false),
  ("total_results", Json.num 10), ("time_taken_displayed", Json.num 1),
  ("query_displayed", Json.str "x"), ("detected_location", Json.null)]

end Heritage

/-! ## Helper lemmas -/

theorem decodeOptField_of_absentOrNull {α : Type} (dec : Json → Option α) {j : Json}
    {k : String} (h : absentOrNull j k) : decodeOptField dec j k = some none := by
  rcases h with h | h
  · simp [decodeOptField, h]
  · simp [decodeOptField, h, decodeNullable]

theorem decodeOptField_of_str {j : Json} {k : String} {s : String}
    (h : j.getField k = some (Json.str s)) :
    decodeOptField decodeString j k = some (some s) := by
  simp [decodeOptField, h, decodeNullable, decodeString]

theorem decodeElems_mem {α : Type} {dec : Json → Option α} :
    ∀ {xs : List Json} {ys : List α}, decodeElems dec xs = some ys →
      ∀ x ∈ xs, ∃ a, dec x = some a := by
  intro xs
  induction xs with
  | nil => simp
  | cons x xs ih =>
    intro ys h y hy
    simp only [decodeElems, Option.bind_eq_bind, Option.bind_eq_some, Option.pure_def,
      Option.some.injEq] at h
    obtain ⟨a, ha, as, has, rfl⟩ := h
    rcases List.mem_cons.1 hy with rfl | hy
    · exact ⟨a, ha⟩
    · exact ih has y hy

theorem decodeList_inv {α : Type} {dec : Json → Option α} {j : Json} {ys : List α}
    (h : decodeList dec j = some ys) : ∃ xs, j = Json.arr xs ∧ decodeElems dec xs = some ys := by
  cases j <;> simp_all [decodeList]

theorem decodeReqField_inv {α : Type} {dec : Json → Option α} {j : Json} {k : String} {a : α}
    (h : decodeReqField dec j k = some a) : ∃ v, j.getField k = some v ∧ dec v = some a := by
  simp only [decodeReqField, Option.bind_eq_some] at h
  exact h

theorem fieldOk_of_decodeReqField {α : Type} {dec : Json → Option α} {j : Json} {k : String}
    {a : α} (h : decodeReqField dec j k = some a) : fieldOk dec j k := by
  obtain ⟨v, hv, hd⟩ := decodeReqField_inv h
  exact ⟨v, hv, by simp [hd]⟩

theorem afterChar_append {c : Char} : ∀ {a : List Char}, c ∉ a →
    ∀ b : List Char, afterChar c (a ++ c :: b) = some b := by
  intro a
  induction a with
  | nil => intro _ b; simp [afterChar]
  | cons x xs ih =>
    intro h b
    simp only [List.mem_cons, not_or] at h
    simp [afterChar, Ne.symm h.1, ih h.2]

theorem splitOnChar_not_mem {c : Char} : ∀ {a : List Char}, c ∉ a →
    splitOnChar c a = [a] := by
  intro a
  induction a with
  | nil => intro _; rfl
  | cons x xs ih =>
    intro h
    simp only [List.mem_cons, not_or] at h
    simp [splitOnChar, Ne.symm h.1, ih h.2]

theorem splitOnChar_append {c : Char} : ∀ {a : List Char}, c ∉ a →
    ∀ b : List Char, splitOnChar c (a ++ c :: b) = a :: splitOnChar c b := by
  intro a
  induction a with
  | nil => intro _ b; simp [splitOnChar]
  | cons x xs ih =>
    intro h b
    simp only [List.mem_cons, not_or] at h
    simp [splitOnChar, Ne.symm h.1, ih h.2]

theorem splitAtChar_append {c : Char} : ∀ {a : List Char}, c ∉ a →
    ∀ b : List Char, splitAtChar c (a ++ c :: b) = (a, b) := by
  intro a
  induction a with
  | nil => intro _ b; simp [splitAtChar]
  | cons x xs ih =>
    intro h b
    simp only [List.mem_cons, not_or] at h
    simp [splitAtChar, Ne.symm h.1, ih h.2]

namespace Heritage

theorem decodeResp_keys {j : Json} {r : Resp} (h : decodeResp j = some r) :
    (∃ v, j.getField "request_info" = some v ∧ decodeRequestInfo v = some r.request_info) ∧
    (j.getField "related_searches").isSome ∧ (j.getField "organic_results").isSome := by
  simp [decodeResp, Option.bind_eq_some, decodeReqField] at h
  obtain ⟨ri, ⟨v, hv, hri⟩, sm, ⟨v2, hv2, _⟩, sp, ⟨v3, hv3, _⟩, si, ⟨v4, hv4, _⟩,
    ads, hads, ts, hts, tp, htp, rs, ⟨v5, hv5, _⟩, rq, hrq, og, ⟨v6, hv6, _⟩, rfl⟩ := h
  exact ⟨⟨v, hv, hri⟩, by simp [hv5], by simp [hv6]⟩

theorem decodeRequestInfo_requiredOk {v : Json} {ri : RequestInfo}
    (h : decodeRequestInfo v = some ri) : RequestInfoRequiredOk v := by
  simp only [decodeRequestInfo, Option.bind_eq_bind, Option.bind_eq_some, Option.pure_def,
    Option.some.injEq] at h
  obtain ⟨s, h1, cu, h2, cr, h3, cm, h4, ca, h5, rfl⟩ := h
  exact ⟨fieldOk_of_decodeReqField h1, fieldOk_of_decodeReqField h2,
    fieldOk_of_decodeReqField h3, fieldOk_of_decodeReqField h4, fieldOk_of_decodeReqField h5⟩

theorem decodeSearchMetadata_requiredOk {v : Json} {sm : SearchMetadata}
    (h : decodeSearchMetadata v = some sm) : SearchMetadataRequiredOk v := by
  simp only [decodeSearchMetadata, Option.bind_eq_bind, Option.bind_eq_some, Option.pure_def,
    Option.some.injEq] at h
  obtain ⟨ca, h1, pa, h2, t, h3, eu, h4, hu, h5, ju, h6, lam, _, rfl⟩ := h
  exact ⟨fieldOk_of_decodeReqField h1, fieldOk_of_decodeReqField h2,
    fieldOk_of_decodeReqField h3, fieldOk_of_decodeReqField h4,
    fieldOk_of_decodeReqField h5, fieldOk_of_decodeReqField h6⟩

theorem decodeSearchParameters_requiredOk {v : Json} {sp : SearchParameters}
    (h : decodeSearchParameters v = some sp) : SearchParametersRequiredOk v := by
  simp only [decodeSearchParameters, Option.bind_eq_bind, Option.bind_eq_some, Option.pure_def,
    Option.some.injEq] at h
  obtain ⟨lo, h1, q, h2, rfl⟩ := h
  exact ⟨fieldOk_of_decodeReqField h1, fieldOk_of_decodeReqField h2⟩

theorem decodeSearchInformation_requiredOk {v : Json} {si : SearchInformation}
    (h : decodeSearchInformation v = some si) : SearchInformationRequiredOk v := by
  simp only [decodeSearchInformation, Option.bind_eq_bind, Option.bind_eq_some, Option.pure_def,
    Option.some.injEq] at h
  obtain ⟨zr, h1, tr, h2, td, h3, qd, h4, dl, _, rfl⟩ := h
  exact ⟨fieldOk_of_decodeReqField h1, fieldOk_of_decodeReqField h2,
    fieldOk_of_decodeReqField h3, fieldOk_of_decodeReqField h4⟩

theorem decodeRelatedSearch_requiredOk {x : Json} {rs : RelatedSearch}
    (h : decodeRelatedSearch x = some rs) : RelatedSearchRequiredOk x := by
  simp only [decodeRelatedSearch, Option.bind_eq_bind, Option.bind_eq_some, Option.pure_def,
    Option.some.injEq] at h
  obtain ⟨q, h1, l, h2, rfl⟩ := h
  exact ⟨fieldOk_of_decodeReqField h1, fieldOk_of_decodeReqField h2⟩

theorem decodeOrganicResult_requiredOk {x : Json} {og : OrganicResult}
    (h : decodeOrganicResult x = some og) : OrganicResultRequiredOk x := by
  simp only [decodeOrganicResult, Option.bind_eq_bind, Option.bind_eq_some, Option.pure_def,
    Option.some.injEq] at h
  obtain ⟨p, h1, t, h2, l, h3, d, h4, dl, h5, sn, h6, pr, h7, sm_, _, bp, h8, rfl⟩ := h
  exact ⟨fieldOk_of_decodeReqField h1, fieldOk_of_decodeReqField h2,
    fieldOk_of_decodeReqField h3, fieldOk_of_decodeReqField h4,
    fieldOk_of_decodeReqField h5, fieldOk_of_decodeReqField h6,
    fieldOk_of_decodeReqField h7, fieldOk_of_decodeReqField h8⟩

theorem params_parse (p : Params) (hk : '&' ∉ p.api_key.data) (hl : '&' ∉ p.location.data)
    (hq : '&' ∉ p.q.data) :
    parseQuery (queryPart (Params.to_url p)) =
      [("api_key", p.api_key), ("location", p.location), ("q", p.q)] := by
  have hdata : (Params.to_url p).data =
      "https://api.scaleserp.com/search".data ++ '?' ::
        (("api_key=".data ++ p.api_key.data) ++ '&' ::
          (("location=".data ++ p.location.data) ++ '&' ::
            ("q=".data ++ p.q.data))) := by
    have h0 : (Params.to_url p).data =
        "https://api.scaleserp.com/search?api_key=".data ++ p.api_key.data ++
          "&location=".data ++ p.location.data ++ "&q=".data ++ p.q.data := rfl
    have h1 : "https://api.scaleserp.com/search?api_key=".data =
        "https://api.scaleserp.com/search".data ++ '?' :: "api_key=".data := rfl
    have h2 : "&location=".data = '&' :: "location=".data := rfl
    have h3 : "&q=".data = '&' :: "q=".data := rfl
    rw [h0, h1, h2, h3]
    simp [List.append_assoc]
  have hquery : queryPart (Params.to_url p) =
      ("api_key=".data ++ p.api_key.data) ++ '&' ::
        (("location=".data ++ p.location.data) ++ '&' :: ("q=".data ++ p.q.data)) := by
    rw [queryPart, hdata, afterChar_append (by decide)]
    rfl
  have hseg1 : ('&' : Char) ∉ "api_key=".data ++ p.api_key.data := by
    simp only [List.mem_append, not_or]
    exact ⟨by decide, hk⟩
  have hseg2 : ('&' : Char) ∉ "location=".data ++ p.location.data := by
    simp only [List.mem_append, not_or]
    exact ⟨by decide, hl⟩
  have hseg3 : ('&' : Char) ∉ "q=".data ++ p.q.data := by
    simp only [List.mem_append, not_or]
    exact ⟨by decide, hq⟩
  rw [parseQuery, hquery, splitOnChar_append hseg1, splitOnChar_append hseg2,
    splitOnChar_not_mem hseg3]
  have e1 : "api_key=".data ++ p.api_key.data = "api_key".data ++ '=' :: p.api_key.data := rfl
  have e2 : "location=".data ++ p.location.data =
      "location".data ++ '=' :: p.location.data := rfl
  have e3 : "q=".data ++ p.q.data = "q".data ++ '=' :: p.q.data := rfl
  simp only [List.map, e1, e2, e3,
    splitAtChar_append (by decide : ('=' : Char) ∉ "api_key".data),
    splitAtChar_append (by decide : ('=' : Char) ∉ "location".data),
    splitAtChar_append (by decide : ('=' : Char) ∉ "q".data)]

end Heritage

namespace Locations

theorem decodeLocation_keys {x : Json} {l : Location} (h : decodeLocation x = some l) :
    LocationKeysPresent x := by
  simp only [decodeLocation, Option.bind_eq_bind, Option.bind_eq_some, Option.pure_def,
    Option.some.injEq, decodeReqField] at h
  obtain ⟨id, ⟨v1, hv1, _⟩, name, ⟨v2, hv2, _⟩, tpe, ⟨v3, hv3, _⟩, fn, ⟨v4, hv4, _⟩,
    pid, ⟨v5, hv5, _⟩, cc, ⟨v6, hv6, _⟩, reach, ⟨v7, hv7, _⟩, gps, ⟨v8, hv8, hg⟩, rfl⟩ := h
  refine ⟨by simp [hv1], by simp [hv2], by simp [hv3], by simp [hv4], by simp [hv5],
    by simp [hv6], by simp [hv7], v8, hv8, ?_⟩
  simp only [decodeGpsCoordinates, Option.bind_eq_bind, Option.bind_eq_some, Option.pure_def,
    Option.some.injEq, decodeReqField] at hg
  obtain ⟨la, ⟨w1, hw1, _⟩, lo, ⟨w2, hw2, _⟩, rfl⟩ := hg
  exact ⟨by simp [hw1], by simp [hw2]⟩

end Locations

/-! ## Claims -/

namespace Heritage

/-- Claim C1 (code bug): the claim says every parameter value in a produced URL
is percent-encoded so that parsing the URL back and percent-decoding recovers
the original text.  `Params::to_url` (and likewise `LocReqConfig::to_url`)
concatenates the raw values with no encoding step: for the query `"a&b"` the
produced search URL carries the text verbatim, a URL consumer parses the `q`
parameter back as `"a"`, and percent-decoding it does not recover `"a&b"`. -/
theorem c1_url_values_not_percent_encoded :
    Params.to_url ⟨"K", "NY", "a&b"⟩ =
      "https://api.scaleserp.com/search?api_key=K&location=NY&q=a&b" ∧
    (parseQuery (queryPart (Params.to_url ⟨"K", "NY", "a&b"⟩))).lookup "q" = some "a" ∧
    percentDecodeStr "a" ≠ "a&b" ∧
    (parseQuery (queryPart (Locations.LocReqConfig.to_url ⟨"K", "a&b", none, none⟩))).lookup
      "q" = some "a" :=
  ⟨rfl, by decide, by decide, by decide⟩

/-- Claim C3: decoding a search-response body whose `ads`, `top_stories`,
`top_products` and `related_questions` keys are absent or explicitly `null`
succeeds with each of those fields read as absent, provided the required
sections (including `related_searches` and `organic_results`) decode; and a
body missing `related_searches` or `organic_results` fails to decode. -/
theorem c3_optional_sections_decode :
    (∀ (j : Json) ri sm sp si rs og,
      decodeReqField decodeRequestInfo j "request_info" = some ri →
      decodeReqField decodeSearchMetadata j "search_metadata" = some sm →
      decodeReqField decodeSearchParameters j "search_parameters" = some sp →
      decodeReqField decodeSearchInformation j "search_information" = some si →
      decodeReqField (decodeList decodeRelatedSearch) j "related_searches" = some rs →
      decodeReqField (decodeList decodeOrganicResult) j "organic_results" = some og →
      absentOrNull j "ads" → absentOrNull j "top_stories" → absentOrNull j "top_products" →
      absentOrNull j "related_questions" →
      decodeResp j = some ⟨ri, sm, sp, si, none, none, none, rs, none, og⟩) ∧
    (∀ j : Json, j.getField "related_searches" = none ∨ j.getField "organic_results" = none →
      decodeResp j = none) := by
  constructor
  · intro j ri sm sp si rs og h1 h2 h3 h4 h5 h6 ha hts htp hrq
    simp [decodeResp, h1, h2, h3, h4, h5, h6, decodeOptField_of_absentOrNull _ ha,
      decodeOptField_of_absentOrNull _ hts, decodeOptField_of_absentOrNull _ htp,
      decodeOptField_of_absentOrNull _ hrq]
  · intro j h
    cases hd : decodeResp j with
    | none => rfl
    | some r =>
      exfalso
      obtain ⟨-, hrs, hog⟩ := decodeResp_keys hd
      rcases h with h | h
      · rw [h] at hrs; simp at hrs
      · rw [h] at hog; simp at hog

/-- Witness for C3: the minimal valid body (optional sections absent, both
required arrays empty) decodes with every optional field `none`, and a body
missing `related_searches` fails. -/
theorem c3_optional_sections_decode_witness :
    decodeResp minimalBody = some minimalResp ∧
    decodeResp (Json.obj [("organic_results", Json.arr [])]) = none :=
  ⟨c3_optional_sections_decode.1 minimalBody _ _ _ _ _ _ rfl rfl rfl rfl rfl rfl
      (Or.inl rfl) (Or.inl rfl) (Or.inl rfl) (Or.inl rfl),
    c3_optional_sections_decode.2 _ (Or.inl rfl)⟩

/-- Claim C4: a search-response body missing any required field, binding a
required field to a value of the wrong JSON type, or containing a malformed
required nested object or array, fails to decode rather than succeeding with a
default.  Stated as the contrapositive: whenever `decodeResp` succeeds, every
required field of `Resp` and of its required nested structures — the four
required sections with each of their required sub-fields, and the two required
arrays with every element's required fields — is present and well-typed. -/
theorem c4_decode_requires_all_required_fields (j : Json) (r : Resp)
    (h : decodeResp j = some r) : RespRequiredOk j := by
  simp only [decodeResp, Option.bind_eq_bind, Option.bind_eq_some, Option.pure_def,
    Option.some.injEq] at h
  obtain ⟨ri, hri, sm, hsm, sp, hsp, si, hsi, ads, hads, ts, hts, tp, htp,
    rs, hrs, rq, hrq, og, hog, rfl⟩ := h
  obtain ⟨v1, hv1, hd1⟩ := decodeReqField_inv hri
  obtain ⟨v2, hv2, hd2⟩ := decodeReqField_inv hsm
  obtain ⟨v3, hv3, hd3⟩ := decodeReqField_inv hsp
  obtain ⟨v4, hv4, hd4⟩ := decodeReqField_inv hsi
  obtain ⟨v5, hv5, hd5⟩ := decodeReqField_inv hrs
  obtain ⟨v6, hv6, hd6⟩ := decodeReqField_inv hog
  refine ⟨⟨v1, hv1, decodeRequestInfo_requiredOk hd1⟩,
    ⟨v2, hv2, decodeSearchMetadata_requiredOk hd2⟩,
    ⟨v3, hv3, decodeSearchParameters_requiredOk hd3⟩,
    ⟨v4, hv4, decodeSearchInformation_requiredOk hd4⟩, ?_, ?_⟩
  · obtain ⟨xs, rfl, hels⟩ := decodeList_inv hd5
    refine ⟨xs, hv5, fun x hx => ?_⟩
    obtain ⟨a, ha⟩ := decodeElems_mem hels x hx
    exact decodeRelatedSearch_requiredOk ha
  · obtain ⟨xs, rfl, hels⟩ := decodeList_inv hd6
    refine ⟨xs, hv6, fun x hx => ?_⟩
    obtain ⟨a, ha⟩ := decodeElems_mem hels x hx
    exact decodeOrganicResult_requiredOk ha

/-- Witness for C4: a valid body with one element in each required array
decodes, so its whole required schema is present and well-typed. -/
theorem c4_decode_requires_all_required_fields_witness : RespRequiredOk fullSearchBody :=
  c4_decode_requires_all_required_fields fullSearchBody fullSearchResp rfl

/-- Claim C6: `Params::new_env` never fails — with `SCALE_SERP_KEY` unset it
returns a `Params` whose `api_key` is the empty string, and with it set it uses
the variable's value; `q` and `location` are the caller's in both cases. -/
theorem c6_new_env_defaults_to_empty_key (env : Env) (q location : String) :
    (env "SCALE_SERP_KEY" = none →
      Params.new_env env q location = ⟨"", location, q⟩) ∧
    (∀ k, env "SCALE_SERP_KEY" = some k →
      Params.new_env env q location = ⟨k, location, q⟩) := by
  constructor
  · intro h; simp [Params.new_env, h]
  · intro k h; simp [Params.new_env, h]

/-- Witness for C6 at concrete environments. -/
theorem c6_new_env_defaults_to_empty_key_witness :
    Params.new_env (fun _ => none) "anionic surfactants" "New York" =
      ⟨"", "New York", "anionic surfactants"⟩ ∧
    Params.new_env (fun _ => some "KEY") "anionic surfactants" "New York" =
      ⟨"KEY", "New York", "anionic surfactants"⟩ :=
  ⟨(c6_new_env_defaults_to_empty_key (fun _ => none) _ _).1 rfl,
    (c6_new_env_defaults_to_empty_key (fun _ => some "KEY") _ _).2 "KEY" rfl⟩

/-- Counterexample to C8 as stated: the NYC preset's location is the string
`"New York,New York,United States"`, not `"New York, NY, US"`, and the USA
preset's location is `"United+States"`, not `"United States"`. -/
theorem c8_preset_location_counterexample :
    (Params.new_env_nyc (fun _ => some "K") "surfactants").location ≠ "New York, NY, US" ∧
    (Params.new_env_usa (fun _ => some "K") "surfactants").location ≠ "United States" := by
  decide

/-- Claim C8 (amended): for every environment and query, the two presets fix
`location` to `"New York,New York,United States"` (NYC) and `"United+States"`
(USA) respectively, while `q` equals the caller-supplied query. -/
theorem c8_preset_locations (env : Env) (q : String) :
    (Params.new_env_nyc env q).location = "New York,New York,United States" ∧
    (Params.new_env_nyc env q).q = q ∧
    (Params.new_env_usa env q).location = "United+States" ∧
    (Params.new_env_usa env q).q = q :=
  ⟨rfl, rfl, rfl, rfl⟩

/-- Counterexample to C9 as stated: for the query `"a&b"` the produced URL's
query part does not consist of exactly the three parameters `api_key`,
`location`, `q` — the unencoded `&` introduces a fourth segment. -/
theorem c9_not_three_params_counterexample :
    (parseQuery (queryPart (Params.to_url ⟨"K", "NY", "a&b"⟩))).map Prod.fst ≠
      ["api_key", "location", "q"] := by
  decide

/-- Claim C9 (amended): `Params::to_url` always produces the fixed wire shape
`https://api.scaleserp.com/search?api_key=<k>&location=<l>&q=<q>`, and whenever
the three values contain no `&` character the query part parses back to exactly
the three parameters `api_key`, `location`, `q` in that order. -/
theorem c9_search_url_shape (p : Params) :
    Params.to_url p = "https://api.scaleserp.com/search?api_key=" ++ p.api_key ++
      "&location=" ++ p.location ++ "&q=" ++ p.q ∧
    ('&' ∉ p.api_key.data → '&' ∉ p.location.data → '&' ∉ p.q.data →
      parseQuery (queryPart (Params.to_url p)) =
        [("api_key", p.api_key), ("location", p.location), ("q", p.q)]) :=
  ⟨rfl, fun hk hl hq => params_parse p hk hl hq⟩

/-- Witness for C9 at a concrete request. -/
theorem c9_search_url_shape_witness :
    Params.to_url ⟨"K", "New York", "anionic surfactants"⟩ =
      "https://api.scaleserp.com/search?api_key=K&location=New York&q=anionic surfactants" ∧
    parseQuery (queryPart (Params.to_url ⟨"K", "New York", "anionic surfactants"⟩)) =
      [("api_key", "K"), ("location", "New York"), ("q", "anionic surfactants")] :=
  ⟨(c9_search_url_shape ⟨"K", "New York", "anionic surfactants"⟩).1,
    (c9_search_url_shape ⟨"K", "New York", "anionic surfactants"⟩).2
      (by decide) (by decide) (by decide)⟩

/-- Claim C10: `search_metadata.location_auto_message` and
`search_information.detected_location` are optional-absent — with the required
fields decoding, a missing or `null` key yields `none` (not a failure), and a
string value yields that string. -/
theorem c10_optional_metadata_subfields :
    (∀ (j : Json) ca pa t eu hu ju,
      decodeReqField decodeString j "created_at" = some ca →
      decodeReqField decodeString j "processed_at" = some pa →
      decodeReqField decodeF64 j "total_time_taken" = some t →
      decodeReqField decodeString j "engine_url" = some eu →
      decodeReqField decodeString j "html_url" = some hu →
      decodeReqField decodeString j "json_url" = some ju →
      (absentOrNull j "location_auto_message" →
        decodeSearchMetadata j = some ⟨ca, pa, t, eu, hu, ju, none⟩) ∧
      (∀ m, j.getField "location_auto_message" = some (Json.str m) →
        decodeSearchMetadata j = some ⟨ca, pa, t, eu, hu, ju, some m⟩)) ∧
    (∀ (j : Json) zr tr td qd,
      decodeReqField decodeBool j "original_query_yields_zero_results" = some zr →
      decodeReqField decodeUSize j "total_results" = some tr →
      decodeReqField decodeF64 j "time_taken_displayed" = some td →
      decodeReqField decodeString j "query_displayed" = some qd →
      (absentOrNull j "detected_location" →
        decodeSearchInformation j = some ⟨zr, tr, td, qd, none⟩) ∧
      (∀ m, j.getField "detected_location" = some (Json.str m) →
        decodeSearchInformation j = some ⟨zr, tr, td, qd, some m⟩)) := by
  constructor
  · intro j ca pa t eu hu ju h1 h2 h3 h4 h5 h6
    constructor
    · intro hab
      simp [decodeSearchMetadata, h1, h2, h3, h4, h5, h6, decodeOptField_of_absentOrNull _ hab]
    · intro m hm
      simp [decodeSearchMetadata, h1, h2, h3, h4, h5, h6, decodeOptField_of_str hm]
  · intro j zr tr td qd h1 h2 h3 h4
    constructor
    · intro hab
      simp [decodeSearchInformation, h1, h2, h3, h4, decodeOptField_of_absentOrNull _ hab]
    · intro m hm
      simp [decodeSearchInformation, h1, h2, h3, h4, decodeOptField_of_str hm]

/-- Witness for C10: a metadata object without `location_auto_message` decodes
to `none`, one carrying a string decodes to that string, and an information
object with `detected_location: null` decodes to `none`. -/
theorem c10_optional_metadata_subfields_witness :
    decodeSearchMetadata metaNoAuto = some ⟨"c", "p", 1, "e", "h", "j", none⟩ ∧
    decodeSearchMetadata metaWithAuto =
      some ⟨"c", "p", 1, "e", "h", "j", some "Results for New York"⟩ ∧
    decodeSearchInformation infoNullDetected = some ⟨false, 10, 1, "x", none⟩ :=
  ⟨(c10_optional_metadata_subfields.1 metaNoAuto "c" "p" 1 "e" "h" "j"
      rfl rfl rfl rfl rfl rfl).1 (Or.inl rfl),
    (c10_optional_metadata_subfields.1 metaWithAuto "c" "p" 1 "e" "h" "j"
      rfl rfl rfl rfl rfl rfl).2 "Results for New York" rfl,
    (c10_optional_metadata_subfields.2 infoNullDetected false 10 1 "x"
      rfl rfl rfl rfl).1 (Or.inr rfl)⟩

end Heritage

namespace Locations

/-- Claim C2 (code bug): the claim says set optional parameters appear as named
`name=value` pairs (`.../locations?api_key=K&q=Chicago&country_code=us`).
`LocReqConfig::to_url` instead appends `'&'` followed by the bare value: with
`country_code = Some "us"` the URL ends in `&us`, and the parsed query has no
`country_code` parameter at all. -/
theorem c2_optional_params_emitted_bare :
    LocReqConfig.to_url ⟨"K", "Chicago", none, some "us"⟩ =
      "https://api.scaleserp.com/locations?api_key=K&q=Chicago&us" ∧
    (parseQuery (queryPart (LocReqConfig.to_url ⟨"K", "Chicago", none, some "us"⟩))).lookup
      "country_code" = none ∧
    parseQuery (queryPart (LocReqConfig.to_url ⟨"K", "Chicago", none, some "us"⟩)) =
      [("api_key", "K"), ("q", "Chicago"), ("us", "")] :=
  ⟨rfl, by decide, by decide⟩

/-- Claim C5: a locations-response body decodes only if every field of the
schema is present — `request_info` (with `success`), `locations_total`,
`locations_total_current_page`, `page`, `limit`, and `locations` as an array
each of whose elements carries `id`, `name`, `type`, `full_name`, `parent_id`,
`country_code`, `reach` and a `gps_coordinates` object with `latitude` and
`longitude`; a missing field makes decoding fail. -/
theorem c5_locations_schema_all_required (j : Json) (r : LocationResp)
    (h : decodeLocationResp j = some r) : LocationRespKeysPresent j := by
  simp only [decodeLocationResp, Option.bind_eq_bind, Option.bind_eq_some, Option.pure_def,
    Option.some.injEq, decodeReqField] at h
  obtain ⟨ri, ⟨v1, hv1, hri⟩, lt, ⟨v2, hv2, _⟩, lc, ⟨v3, hv3, _⟩, pg, ⟨v4, hv4, _⟩,
    lim, ⟨v5, hv5, _⟩, locs, ⟨v6, hv6, hlocs⟩, rfl⟩ := h
  refine ⟨⟨v1, hv1, ?_⟩, by simp [hv2], by simp [hv3], by simp [hv4], by simp [hv5], ?_⟩
  · simp only [decodeRequestInfo, Option.bind_eq_bind, Option.bind_eq_some, Option.pure_def,
      Option.some.injEq, decodeReqField] at hri
    obtain ⟨s, ⟨w, hw, _⟩, rfl⟩ := hri
    simp [hw]
  · obtain ⟨xs, rfl, hels⟩ := decodeList_inv hlocs
    refine ⟨xs, hv6, fun x hx => ?_⟩
    obtain ⟨l, hl⟩ := decodeElems_mem hels x hx
    exact decodeLocation_keys hl

/-- Witness for C5: a complete locations body decodes, so every schema key is
present in it. -/
theorem c5_locations_schema_all_required_witness : LocationRespKeysPresent fullLocBody :=
  c5_locations_schema_all_required fullLocBody fullLocResp rfl

/-- Claim C7: `LocReqConfig::new_from_env` fails fatally (the `unwrap` panic,
modelled as `none`) when `SCALE_SERP_KEY` is unset, and on success returns the
config built by `new` with the variable's value as `api_key` and no filters. -/
theorem c7_new_from_env_fails_when_unset (env : Env) (q : String) :
    (env "SCALE_SERP_KEY" = none → LocReqConfig.new_from_env env q = none) ∧
    (∀ k, env "SCALE_SERP_KEY" = some k →
      LocReqConfig.new_from_env env q = some ⟨k, q, none, none⟩) := by
  constructor
  · intro h; simp [LocReqConfig.new_from_env, h]
  · intro k h; simp [LocReqConfig.new_from_env, h, LocReqConfig.new]

/-- Witness for C7 at concrete environments. -/
theorem c7_new_from_env_fails_when_unset_witness :
    LocReqConfig.new_from_env (fun _ => none) "Chicago" = none ∧
    LocReqConfig.new_from_env (fun _ => some "KEY") "Chicago" =
      some ⟨"KEY", "Chicago", none, none⟩ :=
  ⟨(c7_new_from_env_fails_when_unset (fun _ => none) "Chicago").1 rfl,
    (c7_new_from_env_fails_when_unset (fun _ => some "KEY") "Chicago").2 "KEY" rfl⟩

end Locations
